import Mathlib

/-!
Shallow embedding of the reconciliation core of `src/main.py` (the "Fred"
Epic-Games tracker bot): the persisted current/upcoming game lists, the
change-detection and dedup logic of `run_check`, the `save_posted` file
writer, the API-call budget counter, the fetch wrapper, the per-requester
confirmation tokens of `confirm_slash`, and the `daily_check` scheduler tick.

I/O boundaries (HTTP, Discord channels, the wall clock, the JSON files) are
passed in explicitly as values; every function is a pure state transformer
mirroring the Python control flow line by line.
-/

namespace Fred

/-- A catalog item as the Python code sees it: a JSON dict queried with
`g.get("title")`, which yields `None` when the key is absent — hence
`title : Option String`.  `payload` stands for all the remaining fields
(description, seller, images, dates); they never participate in identity
comparisons in the source. -/
structure Game where
  title : Option String
  payload : String
deriving DecidableEq, Repr

/-- The list of titles of a list of games, as produced by the comprehensions
`{g.get("title") for g in games}` / `[u.get("title") for u in ...]` in
`main.py` (set vs list only matters for membership, which coincides). -/
def titles (gs : List Game) : List (Option String) :=
  gs.map Game.title

/-- `are_games_same` (main.py lines 183-186): compares the *sets* of titles
of the two lists.  Python set equality is mutual inclusion of the
title collections. -/
def are_games_same (new_games old_games : List Game) : Bool :=
  (titles new_games).all (fun t => decide (t ∈ titles old_games)) &&
    (titles old_games).all (fun t => decide (t ∈ titles new_games))

/-- One successful catalog fetch body: `data.get("currentGames", [])` and
`data.get("nextGames", [])` (main.py lines 205-206). -/
structure Snapshot where
  currentGames : List Game
  nextGames : List Game
deriving DecidableEq, Repr

/-- The durable record kept in `posted_games.json`: the module-level globals
`posted_games`, `posted_upcoming`, `last_daily_run` (main.py lines 66-75).
`last_daily_run` holds `str(date)` or `None`. -/
structure PersistedState where
  current : List Game
  upcoming : List Game
  last_daily_run : Option String
deriving DecidableEq, Repr

/-- The outcome of one `run_check` invocation, classified by which branch of
main.py lines 188-249 returned: `Failed` is the `return False` paths,
`Unchanged` the early `return True` at line 214 (with the flag recording
whether a confirmation token was armed), `Changed` the fall-through that
rewrites state; it carries the games handed to `make_embeds` at lines
230-231 (full current list, and only the newly added upcoming games). -/
inductive ReconcileResult where
  | Failed : ReconcileResult
  | Unchanged : Bool → ReconcileResult
  | Changed : List Game → List Game → ReconcileResult
deriving DecidableEq, Repr

/-- The `pending_confirmations` dict (main.py line 61): requester mention →
expiry instant.  Time is modelled as seconds on a `Nat` clock. -/
abbrev PendingMap := String → Option Nat

/-- The empty `pending_confirmations` dict. -/
def emptyPending : PendingMap := fun _ => none

/-- Arming a confirmation token (main.py line 212):
`pending_confirmations[ctx_mention] = datetime.now(CET) + timedelta(minutes=1)`.
Dict assignment overwrites any prior token for the same key. -/
def arm (m : PendingMap) (r : String) (now : Nat) : PendingMap :=
  fun x => if x = r then some (now + 60) else m x

/-- The token lookup-and-consume of `confirm_slash` (main.py lines 396-408):
`expiry = pending_confirmations.get(mention)`; if a token exists and
`now <= expiry`, it is popped and the games are re-displayed (`true`);
otherwise the reply is "No pending confirmation or it expired" (`false`)
and — in the code — the dict is left untouched. -/
def tryConsume (m : PendingMap) (r : String) (now : Nat) : Bool × PendingMap :=
  match m r with
  | some expiry =>
      if now ≤ expiry then
        (true, fun x => if x = r then none else m x)
      else
        (false, m)
  | none => (false, m)

/-- The retained-upcoming filter (main.py line 219):
`[g for g in posted_upcoming if g.get("title") not in current_titles]`. -/
def retainedUpcoming (upcoming : List Game) (current_titles : List (Option String)) :
    List Game :=
  upcoming.filter (fun g => !decide (g.title ∈ current_titles))

/-- The new-upcoming filter (main.py line 222): games of the snapshot's
`nextGames` whose title is neither a current title nor the title of an
already-retained upcoming entry. -/
def newUpcoming (next_games : List Game) (current_titles : List (Option String))
    (retained : List Game) : List Game :=
  next_games.filter
    (fun g => !decide (g.title ∈ current_titles) &&
              !decide (g.title ∈ titles retained))

/-- `save_posted` (main.py lines 77-88): the JSON object written to
`posted_games.json`.  The upcoming list is cleaned on the way out: any
entry whose title is also a current title is dropped from the file. -/
def save_posted (st : PersistedState) : PersistedState :=
  { current := st.current
    upcoming := retainedUpcoming st.upcoming (titles st.current)
    last_daily_run := st.last_daily_run }

/-- Everything observable about one `run_check` call: the branch taken, the
in-memory state afterwards, the confirmation dict afterwards, and whether
`save_posted` wrote the state file during the call. -/
structure RunOutcome where
  result : ReconcileResult
  state : PersistedState
  pending : PendingMap
  savedFile : Bool

/-- `run_check` (main.py lines 188-249) as a pure state transformer.

Inputs standing for I/O: `fetchResult` is the value of `await fetch_games()`
(`none` = fetch error); `hasFreeChannels` is whether
`get_free_game_channels()` found any channel; `ctx_mention` and
`interactionChannel` mirror the keyword arguments; `nowDate` is
`str(datetime.now(CET).date())` and `nowTime` the clock instant used for
token expiry.  Control flow, in source order: fetch-failure guard, channel
guard, same-titles early return (arming a token when both a mention and an
interaction channel are present), then the Changed branch: replace current,
drop now-current titles from upcoming, append only genuinely new upcoming
games, stamp `last_daily_run`, and save. -/
def run_check (st : PersistedState) (pending : PendingMap)
    (fetchResult : Option Snapshot) (hasFreeChannels : Bool)
    (ctx_mention : Option String) (force : Bool) (interactionChannel : Bool)
    (nowDate : String) (nowTime : Nat) : RunOutcome :=
  match fetchResult with
  | none =>
      { result := .Failed, state := st, pending := pending, savedFile := false }
  | some data =>
      let channelsNonempty := if interactionChannel then true else hasFreeChannels
      if !channelsNonempty then
        { result := .Failed, state := st, pending := pending, savedFile := false }
      else
        let current_games := data.currentGames
        let next_games := data.nextGames
        let current_titles := titles current_games
        if are_games_same current_games st.current && !force then
          match ctx_mention with
          | some m =>
              if interactionChannel then
                { result := .Unchanged true, state := st,
                  pending := arm pending m nowTime, savedFile := false }
              else
                { result := .Unchanged false, state := st,
                  pending := pending, savedFile := false }
          | none =>
              { result := .Unchanged false, state := st,
                pending := pending, savedFile := false }
        else
          let retained := retainedUpcoming st.upcoming current_titles
          let new_upcoming := newUpcoming next_games current_titles retained
          { result := .Changed current_games new_upcoming,
            state := { current := current_games,
                       upcoming := retained ++ new_upcoming,
                       last_daily_run := some nowDate },
            pending := pending,
            savedFile := true }

/-- `get_api_call_count` (main.py lines 30-37): read `api_calls.json`; a
missing or corrupt file reads as `(0, "")`. -/
def get_api_call_count (file : Option (Nat × String)) : Nat × String :=
  file.getD (0, "")

/-- `increment_api_calls` (main.py lines 39-52): reset the count when the
stored month differs from the current month, add one, write the file back,
and return the new count.  The result is `(returned count, new file)`. -/
def increment_api_calls (file : Option (Nat × String)) (currentMonth : String) :
    Nat × (Nat × String) :=
  let read := get_api_call_count file
  let count0 := if read.2 ≠ currentMonth then 0 else read.1
  let count := count0 + 1
  (count, (count, currentMonth))

/-- What the network did during one `fetch_games` call: a response with a
status code and a body that either parsed (`some`) or raised inside
`resp.json()` (`none`), or an exception before any response (connection
error / timeout). -/
inductive NetResult where
  | response : Nat → Option Snapshot → NetResult
  | transportError : NetResult
  | timeout : NetResult
deriving DecidableEq, Repr

/-- The fetch-error classification of the spec: transport error, timeout,
non-success HTTP status, or malformed body. -/
def isFetchError : NetResult → Bool
  | .response status body => decide (status ≠ 200) || body.isNone
  | .transportError => true
  | .timeout => true

/-- `fetch_games` (main.py lines 102-118): increments and persists the API
budget, then performs the request; any non-200 status returns `None`, and
any exception (transport, timeout, JSON decode) is caught and returns
`None`.  Result is `(snapshot or None, new budget file)`. -/
def fetch_games (net : NetResult) (file : Option (Nat × String))
    (currentMonth : String) : Option Snapshot × (Nat × String) :=
  let newFile := (increment_api_calls file currentMonth).2
  match net with
  | .response status body =>
      if status ≠ 200 then (none, newFile)
      else
        match body with
        | some snap => (some snap, newFile)
        | none => (none, newFile)
  | .transportError => (none, newFile)
  | .timeout => (none, newFile)

/-- One sample of the CET wall clock, split into the pieces the code reads:
`str(now.date())`, `now.strftime("%Y-%m")`, the minutes elapsed since
midnight (to compare against 17:01), and an absolute second count for
token expiries. -/
structure Clock where
  date : String
  month : String
  minutesOfDay : Nat
  nowSec : Nat

/-- The whole process state the daily tick touches: persisted games state,
the confirmations dict, and the `api_calls.json` contents. -/
structure BotState where
  ps : PersistedState
  pending : PendingMap
  apiFile : Option (Nat × String)

/-- What one `daily_check` tick did: nothing (gate closed), or it ran
`run_check` with the given outcome. -/
inductive TickAction where
  | skipped : TickAction
  | ran : ReconcileResult → TickAction
deriving DecidableEq, Repr

/-- Minutes since midnight of the daily trigger instant 17:01 CET. -/
def targetMinutes : Nat := 17 * 60 + 1

/-- `daily_check` (main.py lines 476-492): every tick, if local time is at
or past 17:01 and `last_daily_run` differs from today's date string, run
`run_check()` (scheduled call: no mention, not forced, no interaction
channel, destination channels as found).  The tick itself never writes the
date marker; only `run_check`'s Changed branch does. -/
def daily_check (bs : BotState) (net : NetResult) (hasFreeChannels : Bool)
    (clk : Clock) : TickAction × BotState :=
  if targetMinutes ≤ clk.minutesOfDay ∧ bs.ps.last_daily_run ≠ some clk.date then
    let fetched := fetch_games net bs.apiFile clk.month
    let out := run_check bs.ps bs.pending fetched.1 hasFreeChannels
      none false false clk.date clk.nowSec
    (.ran out.result,
     { ps := out.state, pending := out.pending, apiFile := some fetched.2 })
  else
    (.skipped, bs)

/-! ### Basic lemmas about the title filters -/

lemma titles_append (a b : List Game) : titles (a ++ b) = titles a ++ titles b :=
  List.map_append _ _ _

lemma mem_retainedUpcoming {g : Game} {u : List Game} {ct : List (Option String)} :
    g ∈ retainedUpcoming u ct ↔ g ∈ u ∧ g.title ∉ ct := by
  simp [retainedUpcoming, List.mem_filter]

lemma mem_newUpcoming {g : Game} {n : List Game} {ct : List (Option String)}
    {r : List Game} :
    g ∈ newUpcoming n ct r ↔ g ∈ n ∧ g.title ∉ ct ∧ g.title ∉ titles r := by
  simp [newUpcoming, List.mem_filter]

lemma title_mem_titles {g : Game} {gs : List Game} (h : g ∈ gs) :
    g.title ∈ titles gs :=
  List.mem_map_of_mem Game.title h

/-! ### Branch lemmas for `run_check` -/

lemma run_check_none (st : PersistedState) (p : PendingMap) (ch : Bool)
    (ctx : Option String) (force : Bool) (ic : Bool) (d : String) (t : Nat) :
    run_check st p none ch ctx force ic d t = ⟨.Failed, st, p, false⟩ :=
  rfl

lemma run_check_channelless (st : PersistedState) (p : PendingMap) (data : Snapshot)
    (ch : Bool) (ctx : Option String) (force : Bool) (ic : Bool) (d : String) (t : Nat)
    (hch : (if ic then true else ch) = false) :
    run_check st p (some data) ch ctx force ic d t = ⟨.Failed, st, p, false⟩ := by
  simp [run_check, hch]

lemma run_check_unchanged (st : PersistedState) (p : PendingMap) (data : Snapshot)
    (ch : Bool) (ctx : Option String) (force : Bool) (ic : Bool) (d : String) (t : Nat)
    (hch : (if ic then true else ch) = true)
    (hsame : (are_games_same data.currentGames st.current && !force) = true) :
    (∃ b, (run_check st p (some data) ch ctx force ic d t).result = .Unchanged b) ∧
    (run_check st p (some data) ch ctx force ic d t).state = st ∧
    (run_check st p (some data) ch ctx force ic d t).savedFile = false := by
  cases ctx with
  | none => simp [run_check, hch, hsame]
  | some m =>
    cases ic with
    | true => simp [run_check, hsame]
    | false =>
      simp only [if_neg Bool.false_ne_true] at hch
      simp [run_check, hch, hsame]

lemma run_check_changed (st : PersistedState) (p : PendingMap) (data : Snapshot)
    (ch : Bool) (ctx : Option String) (force : Bool) (ic : Bool) (d : String) (t : Nat)
    (hch : (if ic then true else ch) = true)
    (hsame : (are_games_same data.currentGames st.current && !force) = false) :
    run_check st p (some data) ch ctx force ic d t =
      ⟨.Changed data.currentGames
         (newUpcoming data.nextGames (titles data.currentGames)
           (retainedUpcoming st.upcoming (titles data.currentGames))),
       ⟨data.currentGames,
        retainedUpcoming st.upcoming (titles data.currentGames) ++
          newUpcoming data.nextGames (titles data.currentGames)
            (retainedUpcoming st.upcoming (titles data.currentGames)),
        some d⟩,
       p, true⟩ := by
  simp [run_check, hch, hsame]

lemma run_check_cases (st : PersistedState) (p : PendingMap) (fr : Option Snapshot)
    (ch : Bool) (ctx : Option String) (force : Bool) (ic : Bool) (d : String) (t : Nat) :
    (∃ ac au, (run_check st p fr ch ctx force ic d t).result = .Changed ac au ∧
       (run_check st p fr ch ctx force ic d t).state.last_daily_run = some d) ∨
    ((∀ ac au, (run_check st p fr ch ctx force ic d t).result ≠ .Changed ac au) ∧
       (run_check st p fr ch ctx force ic d t).state = st ∧
       (run_check st p fr ch ctx force ic d t).savedFile = false) := by
  cases fr with
  | none =>
    right
    rw [run_check_none]
    exact ⟨(fun ac au h => by cases h), rfl, rfl⟩
  | some data =>
    cases hch : (if ic then true else ch) with
    | false =>
      right
      rw [run_check_channelless st p data ch ctx force ic d t hch]
      exact ⟨(fun ac au h => by cases h), rfl, rfl⟩
    | true =>
      cases hsame : (are_games_same data.currentGames st.current && !force) with
      | true =>
        right
        obtain ⟨⟨b, hb⟩, hst, hsv⟩ :=
          run_check_unchanged st p data ch ctx force ic d t hch hsame
        refine ⟨fun ac au h => ?_, hst, hsv⟩
        rw [hb] at h
        cases h
      | false =>
        left
        rw [run_check_changed st p data ch ctx force ic d t hch hsame]
        exact ⟨_, _, rfl, rfl⟩

/-! ### Branch lemmas for `daily_check` -/

lemma daily_check_run (bs : BotState) (net : NetResult) (ch : Bool) (clk : Clock)
    (h1 : targetMinutes ≤ clk.minutesOfDay) (h2 : bs.ps.last_daily_run ≠ some clk.date) :
    daily_check bs net ch clk =
      (.ran (run_check bs.ps bs.pending (fetch_games net bs.apiFile clk.month).1 ch
               none false false clk.date clk.nowSec).result,
       ⟨(run_check bs.ps bs.pending (fetch_games net bs.apiFile clk.month).1 ch
           none false false clk.date clk.nowSec).state,
        (run_check bs.ps bs.pending (fetch_games net bs.apiFile clk.month).1 ch
           none false false clk.date clk.nowSec).pending,
        some (fetch_games net bs.apiFile clk.month).2⟩) := by
  unfold daily_check
  rw [if_pos ⟨h1, h2⟩]

lemma daily_check_skip (bs : BotState) (net : NetResult) (ch : Bool) (clk : Clock)
    (h : ¬(targetMinutes ≤ clk.minutesOfDay ∧ bs.ps.last_daily_run ≠ some clk.date)) :
    daily_check bs net ch clk = (.skipped, bs) := by
  unfold daily_check
  rw [if_neg h]

lemma changed_inversion (st : PersistedState) (p : PendingMap) (data : Snapshot)
    (ch : Bool) (ctx : Option String) (force : Bool) (ic : Bool) (d : String) (t : Nat)
    (ac au : List Game)
    (h : (run_check st p (some data) ch ctx force ic d t).result = .Changed ac au) :
    ac = data.currentGames ∧
    au = newUpcoming data.nextGames (titles data.currentGames)
           (retainedUpcoming st.upcoming (titles data.currentGames)) ∧
    (run_check st p (some data) ch ctx force ic d t).state =
      ⟨data.currentGames,
       retainedUpcoming st.upcoming (titles data.currentGames) ++ au,
       some d⟩ ∧
    (run_check st p (some data) ch ctx force ic d t).savedFile = true := by
  cases hch : (if ic then true else ch) with
  | false =>
    rw [run_check_channelless st p data ch ctx force ic d t hch] at h
    cases h
  | true =>
    cases hsame : (are_games_same data.currentGames st.current && !force) with
    | true =>
      obtain ⟨⟨b, hb⟩, -, -⟩ := run_check_unchanged st p data ch ctx force ic d t hch hsame
      rw [h] at hb
      cases hb
    | false =>
      have hc := run_check_changed st p data ch ctx force ic d t hch hsame
      rw [hc] at h
      simp only [ReconcileResult.Changed.injEq] at h
      obtain ⟨h1, h2⟩ := h
      subst h1
      subst h2
      rw [hc]
      exact ⟨rfl, rfl, rfl, rfl⟩

/-! ### Concrete fixtures for witnesses and counterexamples -/

def gAlpha : Game := ⟨some "Alpha", "current-alpha"⟩

def gBeta : Game := ⟨some "Beta", "upcoming-beta"⟩

def gBetaCur : Game := ⟨some "Beta", "current-beta"⟩

def gAlphaUp : Game := ⟨some "Alpha", "upcoming-alpha"⟩

def gAlphaFresh : Game := ⟨some "Alpha", "fresh-alpha"⟩

def gNoTitleA : Game := ⟨none, "mystery-a"⟩

def gNoTitleB : Game := ⟨none, "mystery-b"⟩

def gNoTitleC : Game := ⟨none, "mystery-c"⟩

def gNoTitleCur : Game := ⟨none, "untitled-current"⟩

def gNoTitleNext : Game := ⟨none, "untitled-upcoming"⟩

def emptyState : PersistedState := ⟨[], [], none⟩

def snapA : Snapshot := ⟨[gAlpha], [gBeta]⟩

def snapB : Snapshot := ⟨[gBetaCur], [gAlphaUp]⟩

/-- A snapshot carrying the same current title as `snapA` on a fresh item. -/
def snapAFresh : Snapshot := ⟨[gAlphaFresh], []⟩

/-- A confirmations dict holding one token for "user" that expired at t=10. -/
def stalePending : PendingMap := fun x => if x = "user" then some 10 else none

/-- A bot whose stored current game already has the upstream title, with the
daily marker still at the previous day. -/
def bsUnchanged : BotState :=
  ⟨⟨[gAlpha], [], some "2024-01-01"⟩, emptyPending, some (3, "2024-01")⟩

/-- A bot with empty persisted state and no budget file. -/
def bsEmpty : BotState := ⟨emptyState, emptyPending, none⟩

/-- A successful fetch whose current set is a fresh Alpha item. -/
def netAlpha : NetResult := .response 200 (some snapAFresh)

def clkAfternoon : Clock := ⟨"2024-01-02", "2024-01", 1025, 1000⟩

def clkLater : Clock := ⟨"2024-01-02", "2024-01", 1040, 1900⟩

/-- First reconciliation of the worked example: snapshot A against the empty
state, manual trigger (mention plus interaction channel), not forced. -/
def stepA : RunOutcome :=
  run_check emptyState emptyPending (some snapA) true (some "user") false true
    "2024-01-01" 0

/-- Second reconciliation of the worked example: snapshot B against the state
left by `stepA`, scheduled trigger. -/
def stepB : RunOutcome :=
  run_check stepA.state stepA.pending (some snapB) true none false false
    "2024-01-02" 5

/-! ### Claim theorems -/

/-- C8: starting from the empty persisted state, reconciling snapshot A
(current Alpha, upcoming Beta) returns Changed announcing current [Alpha]
and upcoming [Beta] and stores current=[Alpha], upcoming=[Beta]; then
reconciling snapshot B (current Beta, upcoming Alpha) returns Changed and
stores current=[Beta], upcoming=[Alpha] — Beta is dropped from upcoming
because it is now current, Alpha is added because its title is in neither
the new current set nor the retained upcoming set. -/
theorem worked_example_run :
    stepA.result = .Changed [gAlpha] [gBeta] ∧
    stepA.state = ⟨[gAlpha], [gBeta], some "2024-01-01"⟩ ∧
    stepB.result = .Changed [gBetaCur] [gAlphaUp] ∧
    stepB.state = ⟨[gBetaCur], [gAlphaUp], some "2024-01-02"⟩ := by
  decide

/-- C1, counterexample: with the stored marker at yesterday and the upstream
titles unchanged, the scheduled tick runs the reconciliation, it returns
Unchanged, yet the date marker still reads yesterday — so a later tick of
the same day runs a second Scheduled reconciliation, refuting both "after
Unchanged the date marker equals today" and "exactly one Scheduled
reconciliation occurs". -/
theorem scheduler_unchanged_retriggers :
    (daily_check bsUnchanged netAlpha true clkAfternoon).1 = .ran (.Unchanged false) ∧
    (daily_check bsUnchanged netAlpha true clkAfternoon).2.ps.last_daily_run
      = some "2024-01-01" ∧
    (daily_check (daily_check bsUnchanged netAlpha true clkAfternoon).2 netAlpha true
        clkLater).1 = .ran (.Unchanged false) := by
  decide

/-- C6, counterexample: with a token for "user" that expired at t=10, the
lookup at t=120 returns false but the stale token is left in the registry,
refuting "deletes the stale token if one is present". -/
theorem tryConsume_stale_not_deleted :
    (tryConsume stalePending "user" 120).1 = false ∧
    (tryConsume stalePending "user" 120).2 "user" = some 10 := by
  constructor
  · decide
  · simp [tryConsume, stalePending]

/-- C7, counterexample: two distinct titleless items and one titleless item
have equal title sets (all collapse to the missing-title key), so
`are_games_same` deduplicates them; and a titleless upcoming item is
silently dropped by the dedup filter when a titleless item is current —
the Changed result announces no upcoming items and stores none. -/
theorem titleless_collapsed :
    are_games_same [gNoTitleB, gNoTitleC] [gNoTitleA] = true ∧
    (run_check emptyState emptyPending (some ⟨[gNoTitleCur], [gNoTitleNext]⟩) true none
        true false "2024-01-01" 0).result = .Changed [gNoTitleCur] [] ∧
    (run_check emptyState emptyPending (some ⟨[gNoTitleCur], [gNoTitleNext]⟩) true none
        true false "2024-01-01" 0).state.upcoming = [] := by
  decide

/-- C2: after every reconciliation that takes the Changed branch no title
appears in both the stored current and upcoming lists; the new upcoming
list is exactly the retained entries (old upcoming minus titles now
current) followed by the announced new entries (snapshot upcoming whose
title is in neither the new current set nor the retained set); and every
persisted write via `save_posted` also satisfies the dedup invariant. -/
theorem dedup_after_changed (st : PersistedState) (p : PendingMap) (data : Snapshot)
    (ch : Bool) (ctx : Option String) (force : Bool) (ic : Bool) (d : String) (t : Nat)
    (ac au : List Game)
    (h : (run_check st p (some data) ch ctx force ic d t).result = .Changed ac au) :
    (∀ g ∈ (run_check st p (some data) ch ctx force ic d t).state.upcoming,
       g.title ∉ titles (run_check st p (some data) ch ctx force ic d t).state.current) ∧
    (∃ X, (run_check st p (some data) ch ctx force ic d t).state.upcoming = X ++ au ∧
       (∀ g, g ∈ X ↔ g ∈ st.upcoming ∧
          g.title ∉ titles (run_check st p (some data) ch ctx force ic d t).state.current) ∧
       (∀ g, g ∈ au ↔ g ∈ data.nextGames ∧
          g.title ∉ titles (run_check st p (some data) ch ctx force ic d t).state.current ∧
          g.title ∉ titles X)) ∧
    (∀ s : PersistedState, ∀ g ∈ (save_posted s).upcoming,
       g.title ∉ titles (save_posted s).current) := by
  obtain ⟨hac, hau, hst, -⟩ :=
    changed_inversion st p data ch ctx force ic d t ac au h
  rw [hst]
  refine ⟨?_, ?_, ?_⟩
  · intro g hg
    rcases List.mem_append.1 hg with hg | hg
    · exact (mem_retainedUpcoming.1 hg).2
    · rw [hau] at hg
      exact (mem_newUpcoming.1 hg).2.1
  · refine ⟨retainedUpcoming st.upcoming (titles data.currentGames), rfl, ?_, ?_⟩
    · intro g
      exact mem_retainedUpcoming
    · intro g
      rw [hau]
      exact mem_newUpcoming
  · intro s g hg
    exact (mem_retainedUpcoming.1 hg).2

/-- C2 witness: the invariant instantiated on snapshot A against the empty
state. -/
theorem dedup_after_changed_witness :
    (run_check emptyState emptyPending (some snapA) true none true false
        "2024-01-01" 0).result = .Changed [gAlpha] [gBeta] ∧
    (∃ X, (run_check emptyState emptyPending (some snapA) true none true false
        "2024-01-01" 0).state.upcoming = X ++ [gBeta]) := by
  refine ⟨by decide, ?_⟩
  obtain ⟨-, ⟨X, hX, -, -⟩, -⟩ :=
    dedup_after_changed emptyState emptyPending snapA true none true false
      "2024-01-01" 0 [gAlpha] [gBeta] (by decide)
  exact ⟨X, hX⟩

/-- C3: if reconciling snapshot S1 committed (took the Changed branch), a
later non-forced reconcile of any snapshot S2 with the same current
title set returns Unchanged and leaves the persisted state exactly as
committed: same record (so no change to the lists and no advance of
lastDailyRunDate) and no state-file write. -/
theorem unchanged_after_committed (st : PersistedState) (p : PendingMap)
    (S1 S2 : Snapshot) (ch1 : Bool) (ctx1 : Option String) (force1 : Bool) (ic1 : Bool)
    (d1 : String) (t1 : Nat) (ctx2 : Option String) (ic2 : Bool) (d2 : String) (t2 : Nat)
    (ac au : List Game)
    (hcommit : (run_check st p (some S1) ch1 ctx1 force1 ic1 d1 t1).result
      = .Changed ac au)
    (hsame : are_games_same S2.currentGames S1.currentGames = true) :
    (∃ b, (run_check (run_check st p (some S1) ch1 ctx1 force1 ic1 d1 t1).state
        (run_check st p (some S1) ch1 ctx1 force1 ic1 d1 t1).pending
        (some S2) true ctx2 false ic2 d2 t2).result = .Unchanged b) ∧
    (run_check (run_check st p (some S1) ch1 ctx1 force1 ic1 d1 t1).state
        (run_check st p (some S1) ch1 ctx1 force1 ic1 d1 t1).pending
        (some S2) true ctx2 false ic2 d2 t2).state
      = (run_check st p (some S1) ch1 ctx1 force1 ic1 d1 t1).state ∧
    (run_check (run_check st p (some S1) ch1 ctx1 force1 ic1 d1 t1).state
        (run_check st p (some S1) ch1 ctx1 force1 ic1 d1 t1).pending
        (some S2) true ctx2 false ic2 d2 t2).savedFile = false := by
  obtain ⟨-, -, hst, -⟩ :=
    changed_inversion st p S1 ch1 ctx1 force1 ic1 d1 t1 ac au hcommit
  have hch2 : (if ic2 then true else true) = true := by
    cases ic2 <;> rfl
  have hcur : (run_check st p (some S1) ch1 ctx1 force1 ic1 d1 t1).state.current
      = S1.currentGames := by
    rw [hst]
  have hsame2 : (are_games_same S2.currentGames
      (run_check st p (some S1) ch1 ctx1 force1 ic1 d1 t1).state.current && !false)
      = true := by
    rw [hcur, hsame]
    rfl
  exact run_check_unchanged _ _ S2 true ctx2 false ic2 d2 t2 hch2 hsame2

/-- C3 witness: snapshot A committed from the empty state, then a snapshot
with the same single current title reconciled without force. -/
theorem unchanged_after_committed_witness :
    (run_check (run_check emptyState emptyPending (some snapA) true none true false
        "2024-01-01" 0).state
      (run_check emptyState emptyPending (some snapA) true none true false
        "2024-01-01" 0).pending
      (some snapAFresh) true none false false "2024-01-02" 7).savedFile = false := by
  have h :=
    unchanged_after_committed emptyState emptyPending snapA snapAFresh true none true
      false "2024-01-01" 0 none false "2024-01-02" 7 [gAlpha] [gBeta]
      (by decide) (by decide)
  exact h.2.2

/-- C4: a forced reconciliation always takes the Changed branch; running it
twice with the same snapshot announces the identical full current list
both times, and the second call announces no upcoming items, since every
upcoming title is by then either current or already retained. -/
theorem forced_reconcile_idempotent (st : PersistedState) (p : PendingMap)
    (snap : Snapshot) (ctx : Option String) (ic : Bool) (d1 : String) (t1 : Nat)
    (d2 : String) (t2 : Nat) :
    (∃ nu, (run_check st p (some snap) true ctx true ic d1 t1).result
      = .Changed snap.currentGames nu) ∧
    (run_check (run_check st p (some snap) true ctx true ic d1 t1).state
        (run_check st p (some snap) true ctx true ic d1 t1).pending
        (some snap) true ctx true ic d2 t2).result
      = .Changed snap.currentGames [] := by
  have hch : (if ic then true else true) = true := by
    cases ic <;> rfl
  have hf1 : (are_games_same snap.currentGames st.current && !true) = false := by
    simp
  have hc1 := run_check_changed st p snap true ctx true ic d1 t1 hch hf1
  refine ⟨⟨_, by rw [hc1]⟩, ?_⟩
  rw [hc1]
  have hf2 : (are_games_same snap.currentGames
      (⟨snap.currentGames,
        retainedUpcoming st.upcoming (titles snap.currentGames) ++
          newUpcoming snap.nextGames (titles snap.currentGames)
            (retainedUpcoming st.upcoming (titles snap.currentGames)),
        some d1⟩ : PersistedState).current && !true) = false := by
    simp
  have hc2 := run_check_changed
    ⟨snap.currentGames,
      retainedUpcoming st.upcoming (titles snap.currentGames) ++
        newUpcoming snap.nextGames (titles snap.currentGames)
          (retainedUpcoming st.upcoming (titles snap.currentGames)),
      some d1⟩ p snap true ctx true ic d2 t2 hch hf2
  rw [hc2]
  have hnil : newUpcoming snap.nextGames (titles snap.currentGames)
      (retainedUpcoming
        (retainedUpcoming st.upcoming (titles snap.currentGames) ++
          newUpcoming snap.nextGames (titles snap.currentGames)
            (retainedUpcoming st.upcoming (titles snap.currentGames)))
        (titles snap.currentGames)) = [] := by
    have hfix : retainedUpcoming
        (retainedUpcoming st.upcoming (titles snap.currentGames) ++
          newUpcoming snap.nextGames (titles snap.currentGames)
            (retainedUpcoming st.upcoming (titles snap.currentGames)))
        (titles snap.currentGames)
        = retainedUpcoming st.upcoming (titles snap.currentGames) ++
            newUpcoming snap.nextGames (titles snap.currentGames)
              (retainedUpcoming st.upcoming (titles snap.currentGames)) := by
      unfold retainedUpcoming
      apply List.filter_eq_self.2
      intro g hg
      rcases List.mem_append.1 hg with hg | hg
      · have := (mem_retainedUpcoming.1 hg).2
        simpa using this
      · have := (mem_newUpcoming.1 hg).2.1
        simpa using this
    rw [hfix]
    unfold newUpcoming
    apply List.filter_eq_nil_iff.2
    intro g hg hcontra
    rw [Bool.and_eq_true] at hcontra
    obtain ⟨hb1, hb2⟩ := hcontra
    have h1 : g.title ∉ titles snap.currentGames := by
      simpa using hb1
    have h2 : g.title ∉ titles
        (retainedUpcoming st.upcoming (titles snap.currentGames) ++
          newUpcoming snap.nextGames (titles snap.currentGames)
            (retainedUpcoming st.upcoming (titles snap.currentGames))) := by
      simpa using hb2
    apply h2
    rw [titles_append]
    apply List.mem_append.2
    right
    apply title_mem_titles
    refine mem_newUpcoming.2 ⟨hg, h1, fun hr => ?_⟩
    apply h2
    rw [titles_append]
    exact List.mem_append.2 (Or.inl hr)
  rw [hnil]

/-- C5: every fetch-error outcome (transport error, timeout, non-success
status, malformed body) yields no snapshot from `fetch_games`, and the
reconciliation observing it returns Failed with the state, the
confirmations, and the state file untouched. -/
theorem fetch_error_no_mutation (net : NetResult) (file : Option (Nat × String))
    (m : String) (st : PersistedState) (p : PendingMap) (ch : Bool)
    (ctx : Option String) (force : Bool) (ic : Bool) (d : String) (t : Nat)
    (h : isFetchError net = true) :
    (fetch_games net file m).1 = none ∧
    run_check st p (fetch_games net file m).1 ch ctx force ic d t
      = ⟨.Failed, st, p, false⟩ := by
  have hnone : (fetch_games net file m).1 = none := by
    cases net with
    | response status body =>
      simp only [isFetchError, Bool.or_eq_true, decide_eq_true_eq,
        Option.isNone_iff_eq_none] at h
      rcases h with h | h
      · simp [fetch_games, h]
      · subst h
        by_cases hs : status = 200 <;> simp [fetch_games, hs]
    | transportError => rfl
    | timeout => rfl
  rw [hnone]
  exact ⟨rfl, rfl⟩

/-- C5 witness: a timeout on a fetch over the empty state. -/
theorem fetch_error_no_mutation_witness :
    isFetchError .timeout = true ∧
    (fetch_games .timeout none "2024-01").1 = none := by
  refine ⟨by decide, ?_⟩
  exact (fetch_error_no_mutation .timeout none "2024-01" emptyState emptyPending true
    none false false "2024-01-01" 0 (by decide)).1

/-- C9: for every fetch attempt — succeeding or failing — the budget file is
rewritten with the current month and a count equal to 1 when the stored
month differs from the current month (rollover reset before increment)
and to old count + 1 otherwise; the count returned to the caller is the
persisted one. -/
theorem api_budget_update (net : NetResult) (file : Option (Nat × String))
    (m : String) :
    (fetch_games net file m).2 =
      ((if (get_api_call_count file).2 ≠ m then 1
        else (get_api_call_count file).1 + 1), m) ∧
    (increment_api_calls file m).1 = (fetch_games net file m).2.1 := by
  have hfile : (fetch_games net file m).2 = (increment_api_calls file m).2 := by
    cases net with
    | response status body =>
      by_cases hs : status ≠ 200
      · simp [fetch_games, hs]
      · cases body <;> simp [fetch_games, hs]
    | transportError => rfl
    | timeout => rfl
  rw [hfile]
  unfold increment_api_calls
  constructor
  · by_cases hm : (get_api_call_count file).2 ≠ m <;> simp [hm]
  · rfl

/-- C1, amended: with the marker not at today and the time at or past the
trigger, a tick invokes the reconciliation; after a Changed result the
marker equals today and a later tick of the same day skips; after any
non-Changed result (Failed or Unchanged) the persisted state — marker
included — is untouched and a later tick of the same day invokes the
reconciliation again. -/
theorem daily_retrigger_amended (bs : BotState) (net net' : NetResult)
    (ch ch' : Bool) (clk clk' : Clock)
    (h1 : targetMinutes ≤ clk.minutesOfDay)
    (h2 : bs.ps.last_daily_run ≠ some clk.date)
    (h3 : clk'.date = clk.date)
    (h4 : targetMinutes ≤ clk'.minutesOfDay) :
    (∃ r, (daily_check bs net ch clk).1 = .ran r) ∧
    (∀ ac au, (daily_check bs net ch clk).1 = .ran (.Changed ac au) →
       (daily_check bs net ch clk).2.ps.last_daily_run = some clk.date ∧
       (daily_check (daily_check bs net ch clk).2 net' ch' clk').1 = .skipped) ∧
    (∀ r, (daily_check bs net ch clk).1 = .ran r → (∀ ac au, r ≠ .Changed ac au) →
       (daily_check bs net ch clk).2.ps = bs.ps ∧
       ∃ r', (daily_check (daily_check bs net ch clk).2 net' ch' clk').1 = .ran r') := by
  have hrun := daily_check_run bs net ch clk h1 h2
  rcases run_check_cases bs.ps bs.pending (fetch_games net bs.apiFile clk.month).1 ch
      none false false clk.date clk.nowSec with
    ⟨ac0, au0, hres, hldr⟩ | ⟨hnot, hstate, -⟩
  · refine ⟨⟨_, by rw [hrun]⟩, ?_, ?_⟩
    · intro ac au hact
      have hmark : (daily_check bs net ch clk).2.ps.last_daily_run = some clk.date := by
        rw [hrun]
        exact hldr
      refine ⟨hmark, ?_⟩
      have hskip := daily_check_skip (daily_check bs net ch clk).2 net' ch' clk'
        (fun hcond => hcond.2 (by rw [hmark, h3]))
      rw [hskip]
    · intro r hact hne
      exfalso
      rw [hrun] at hact
      injection hact with hact
      exact hne ac0 au0 (hact ▸ hres)
  · refine ⟨⟨_, by rw [hrun]⟩, ?_, ?_⟩
    · intro ac au hact
      exfalso
      rw [hrun] at hact
      injection hact with hact
      exact hnot ac au hact
    · intro r hact hne
      have hps : (daily_check bs net ch clk).2.ps = bs.ps := by
        rw [hrun]
        exact hstate
      refine ⟨hps, ?_⟩
      have h2' : (daily_check bs net ch clk).2.ps.last_daily_run ≠ some clk'.date := by
        rw [hps, h3]
        exact h2
      rw [daily_check_run _ net' ch' clk' h4 h2']
      exact ⟨_, rfl⟩

/-- C1 witness: from the empty state the scheduled run is Changed, the marker
is stamped, and the later tick of the same day skips. -/
theorem daily_retrigger_amended_witness :
    (daily_check bsEmpty netAlpha true clkAfternoon).1
      = .ran (.Changed [gAlphaFresh] []) ∧
    (daily_check (daily_check bsEmpty netAlpha true clkAfternoon).2 netAlpha true
        clkLater).1 = .skipped := by
  have h := daily_retrigger_amended bsEmpty netAlpha netAlpha true true clkAfternoon
    clkLater (by decide) (by decide) rfl (by decide)
  exact ⟨by decide, (h.2.1 [gAlphaFresh] [] (by decide)).2⟩

/-- C6, amended: `tryConsume` returns true and deletes the token iff a token
exists for the requester and now is at or before its expiry; in every
other case it returns false and leaves the registry exactly as it was —
a stale token is not deleted at lookup, it disappears only by successful
consumption or by a later arm overwriting it; arming overwrites any prior
token for that requester and touches no other entry, so at most one token
per requester ever exists. -/
theorem tryConsume_amended (m : PendingMap) (r : String) (now : Nat) :
    ((tryConsume m r now).1 = true ↔ ∃ e, m r = some e ∧ now ≤ e) ∧
    ((tryConsume m r now).1 = true →
       (tryConsume m r now).2 r = none ∧
       ∀ x, x ≠ r → (tryConsume m r now).2 x = m x) ∧
    ((tryConsume m r now).1 = false → (tryConsume m r now).2 = m) ∧
    ((arm m r now) r = some (now + 60) ∧
       ∀ x, x ≠ r → (arm m r now) x = m x) := by
  refine ⟨?_, ?_, ?_, ?_, ?_⟩
  · cases hm : m r with
    | none => simp [tryConsume, hm]
    | some e =>
      by_cases hle : now ≤ e
      · simp [tryConsume, hm, hle]
      · simp [tryConsume, hm, hle]
  · intro htrue
    cases hm : m r with
    | none => simp [tryConsume, hm] at htrue
    | some e =>
      by_cases hle : now ≤ e
      · constructor
        · simp [tryConsume, hm, hle]
        · intro x hx
          simp [tryConsume, hm, hle, hx]
      · simp [tryConsume, hm, hle] at htrue
  · intro hfalse
    cases hm : m r with
    | none => simp [tryConsume, hm]
    | some e =>
      by_cases hle : now ≤ e
      · simp [tryConsume, hm, hle] at hfalse
      · simp [tryConsume, hm, hle]
  · simp [arm]
  · intro x hx
    simp [arm, hx]

/-- C6 witness: the amended behaviour at the stale token — lookup past the
expiry returns false and hands back the registry unchanged. -/
theorem tryConsume_amended_witness :
    (tryConsume stalePending "user" 120).2 = stalePending := by
  have h := tryConsume_amended stalePending "user" 120
  exact h.2.2.1 (by decide)

/-- C7, amended: identity is the value stored under the title key, which is
the missing-title marker for items lacking a title; all titleless items
therefore share one identity and are deduplicated against each other like
items with equal titles — a one-element titleless list is same-titled as
any other titleless item — and on a Changed reconciliation no titleless
snapshot-upcoming item survives into the announced upcoming list when the
current set contains a titleless item: it is silently dropped. -/
theorem titleless_amended :
    (∀ g h : Game, g.title = none → h.title = none →
       are_games_same [g] [h] = true) ∧
    (∀ (st : PersistedState) (p : PendingMap) (snap : Snapshot) (ch : Bool)
        (ctx : Option String) (force : Bool) (ic : Bool) (d : String) (t : Nat)
        (ac au : List Game) (c : Game),
       c ∈ snap.currentGames → c.title = none →
       (run_check st p (some snap) ch ctx force ic d t).result = .Changed ac au →
       ∀ g ∈ au, g.title ≠ none) := by
  constructor
  · intro g h hg hh
    simp [are_games_same, titles, hg, hh]
  · intro st p snap ch ctx force ic d t ac au c hc hct hres g hg hgt
    obtain ⟨-, hau, -, -⟩ :=
      changed_inversion st p snap ch ctx force ic d t ac au hres
    rw [hau] at hg
    apply (mem_newUpcoming.1 hg).2.1
    rw [hgt, ← hct]
    exact title_mem_titles hc

/-- C7 witness: two concrete titleless items compare as same-titled. -/
theorem titleless_amended_witness :
    are_games_same [gNoTitleB] [gNoTitleA] = true :=
  titleless_amended.1 gNoTitleB gNoTitleA rfl rfl

/-- C10: when the fetch succeeds but there is no destination channel (no
free-games channel found and no interaction channel supplied), the
reconciliation returns Failed with nothing written — for any stored
state, so before any change detection — and the scheduler, seeing
Failed, leaves the marker alone and re-invokes the run on the next
eligible tick of the day, incrementing the API budget again. -/
theorem no_channel_failure_retry (bs : BotState) (snap : Snapshot) (clk clk' : Clock)
    (h1 : targetMinutes ≤ clk.minutesOfDay)
    (h2 : bs.ps.last_daily_run ≠ some clk.date)
    (h3 : clk'.date = clk.date)
    (h4 : targetMinutes ≤ clk'.minutesOfDay)
    (h5 : clk'.month = clk.month) :
    (∀ (st : PersistedState) (p : PendingMap) (ctx : Option String) (force : Bool)
        (d : String) (t : Nat),
       run_check st p (some snap) false ctx force false d t
         = ⟨.Failed, st, p, false⟩) ∧
    (daily_check bs (.response 200 (some snap)) false clk).1 = .ran .Failed ∧
    (daily_check bs (.response 200 (some snap)) false clk).2.ps = bs.ps ∧
    (daily_check (daily_check bs (.response 200 (some snap)) false clk).2
        (.response 200 (some snap)) false clk').1 = .ran .Failed ∧
    (get_api_call_count
        (daily_check (daily_check bs (.response 200 (some snap)) false clk).2
          (.response 200 (some snap)) false clk').2.apiFile).1
      = (get_api_call_count
          (daily_check bs (.response 200 (some snap)) false clk).2.apiFile).1 + 1 := by
  have hfailed : ∀ (st : PersistedState) (p : PendingMap) (ctx : Option String)
      (force : Bool) (d : String) (t : Nat),
      run_check st p (some snap) false ctx force false d t
        = ⟨.Failed, st, p, false⟩ := by
    intro st p ctx force d t
    exact run_check_channelless st p snap false ctx force false d t rfl
  have hsnap : ∀ (file : Option (Nat × String)) (mo : String),
      (fetch_games (.response 200 (some snap)) file mo).1 = some snap := by
    intro file mo
    simp [fetch_games]
  have hrun1 := daily_check_run bs (.response 200 (some snap)) false clk h1 h2
  have hact1 : (daily_check bs (.response 200 (some snap)) false clk).1
      = .ran .Failed := by
    rw [hrun1, hsnap, hfailed]
  have hps1 : (daily_check bs (.response 200 (some snap)) false clk).2.ps = bs.ps := by
    rw [hrun1, hsnap, hfailed]
  have hapi1 : (daily_check bs (.response 200 (some snap)) false clk).2.apiFile
      = some (fetch_games (.response 200 (some snap)) bs.apiFile clk.month).2 := by
    rw [hrun1]
  have h2' : (daily_check bs (.response 200 (some snap)) false clk).2.ps.last_daily_run
      ≠ some clk'.date := by
    rw [hps1, h3]
    exact h2
  have hrun2 := daily_check_run (daily_check bs (.response 200 (some snap)) false clk).2
    (.response 200 (some snap)) false clk' h4 h2'
  have hact2 : (daily_check (daily_check bs (.response 200 (some snap)) false clk).2
      (.response 200 (some snap)) false clk').1 = .ran .Failed := by
    rw [hrun2, hsnap, hfailed]
  refine ⟨hfailed, hact1, hps1, hact2, ?_⟩
  have hapi2 : (daily_check (daily_check bs (.response 200 (some snap)) false clk).2
      (.response 200 (some snap)) false clk').2.apiFile
      = some (fetch_games (.response 200 (some snap))
          (daily_check bs (.response 200 (some snap)) false clk).2.apiFile clk'.month).2 := by
    rw [hrun2]
  rw [hapi2, hapi1]
  simp only [fetch_games, increment_api_calls, get_api_call_count, Option.getD_some]
  rw [h5]
  simp

/-- C10 witness: a successful fetch over the empty bot state with no channels
fails on both consecutive ticks and burns two API calls. -/
theorem no_channel_failure_retry_witness :
    (daily_check bsEmpty (.response 200 (some snapA)) false clkAfternoon).1
      = .ran .Failed ∧
    (daily_check (daily_check bsEmpty (.response 200 (some snapA)) false clkAfternoon).2
        (.response 200 (some snapA)) false clkLater).1 = .ran .Failed := by
  have h := no_channel_failure_retry bsEmpty snapA clkAfternoon clkLater
    (by decide) (by decide) rfl (by decide) rfl
  exact ⟨h.2.1, h.2.2.2.1⟩

end Fred
